/-
  Verification of the input-decoding and navigation core of the
  days-to-thing-tracker kiosk.

  Shallow embedding of:
  - src/python/models.py   (RecurrenceType, Urgency, Task, CompletionRecord)
  - src/python/database.py (Database._calculate_next_due_from_date,
                            the scheduling part of Database.complete_task)
  - src/python/views.py    (ViewState, ActionItem, SettingItem, ViewContext,
                            ViewNavigator handlers)
  - src/python/main.py     (KioskApp._handle_event dispatch for press intents)
  - src/raspberry-pi-deployment/encoder.py (button classifier)

  Conventions:
  - Python `date` values are embedded as `Int` day numbers (proleptic day
    count); `date + timedelta(days = k)` is day-number addition.
  - Python `datetime` timestamps and `time.time()` values are embedded as
    rationals (seconds).
  - Python `int` is `Int`; Python `%` on ints with a positive modulus is
    `Int.emod` (both yield the representative in `[0, m)`).
  - Python list indexing `xs[i]` (which may raise `IndexError`) is `pyGet`;
    a handler that can raise is `Option`-valued, `none` meaning an
    uncaught Python exception.
-/
import Mathlib

namespace DaysTracker

/-! ## models.py -/

/-- Task recurrence patterns (models.py `RecurrenceType`). -/
inductive RecurrenceType where
  | DAILY
  | WEEKLY
  | MONTHLY
  | YEARLY
deriving DecidableEq, Repr

/-- Task urgency levels based on days until due (models.py `Urgency`). -/
inductive Urgency where
  | OVERDUE
  | TODAY
  | TOMORROW
  | WEEK
  | UPCOMING
deriving DecidableEq, Repr

/-- models.py `Urgency.from_days`: determine urgency from days until due. -/
def Urgency.from_days (days : Int) : Urgency :=
  if days < 0 then .OVERDUE
  else if days = 0 then .TODAY
  else if days = 1 then .TOMORROW
  else if days ≤ 7 then .WEEK
  else .UPCOMING

/-- models.py `Task`. `next_due_date` is a day number; `created_at` and
`updated_at` are timestamps in seconds. -/
structure Task where
  id : Int
  name : String
  recurrence_type : RecurrenceType
  recurrence_value : Int
  next_due_date : Int
  created_at : ℚ
  updated_at : ℚ
deriving DecidableEq, Repr

/-- models.py `CompletionRecord`. -/
structure CompletionRecord where
  id : Int
  task_id : Int
  completed_at : ℚ
  days_since_last : Option Int
deriving DecidableEq, Repr

/-! ## database.py — recurrence scheduling -/

/-- database.py `Database._calculate_next_due_from_date`: next due date from
a given date based on recurrence.  `timedelta(weeks = v)` is `v * 7` days;
the monthly case is the fixed 30-day approximation of the source; the final
fallthrough `return from_date + timedelta(days=value)` is unreachable because
the four enum cases are exhaustive. -/
def calculate_next_due_from_date
    (from_date : Int) (recurrence_type : RecurrenceType) (value : Int) : Int :=
  match recurrence_type with
  | .DAILY => from_date + value
  | .WEEKLY => from_date + value * 7
  | .MONTHLY => from_date + value * 30
  | .YEARLY => from_date + value * 365

/-- The next-due date that database.py `Database.complete_task` persists for
a task.  In the source, `now = datetime.now()` is read, but it is used only
for the appended `CompletionRecord` (`completed_at`, `days_since_last`); the
schedule update is
`_calculate_next_due_from_date(task.next_due_date, task.recurrence_type,
task.recurrence_value)`, taken from the task's PREVIOUS due date.  `now` is
kept as an argument here exactly to state that independence. -/
def complete_task_next_due (task : Task) (now : ℚ) : Int :=
  let _ := now
  calculate_next_due_from_date task.next_due_date task.recurrence_type
    task.recurrence_value

/-! ## views.py — navigation state machine -/

/-- views.py `ViewState`. -/
inductive ViewState where
  | TASK_LIST
  | TASK_ACTIONS
  | DELETE_CONFIRM
  | COMPLETING
  | TASK_HISTORY
  | SETTINGS
  | QR_CODE
  | EMPTY
deriving DecidableEq, Repr

/-- views.py `ActionItem` (action menu entries, in declaration order). -/
inductive ActionItem where
  | DONE
  | HISTORY
  | DELETE
  | BACK
deriving DecidableEq, Repr

/-- views.py `SettingItem` (settings menu entries, in declaration order). -/
inductive SettingItem where
  | MANAGE_TASKS
  | SCREEN_TIMEOUT
  | BACK
deriving DecidableEq, Repr

/-- `list(ActionItem)` in declaration order (the default value of
`ViewContext.actions`). -/
def actionItemList : List ActionItem :=
  [.DONE, .HISTORY, .DELETE, .BACK]

/-- `list(SettingItem)` in declaration order (built locally in
`handle_press`, and whose length is used in `handle_clockwise`). -/
def settingItemList : List SettingItem :=
  [.MANAGE_TASKS, .SCREEN_TIMEOUT, .BACK]

/-- views.py `ViewContext`: current view state and context data. -/
structure ViewContext where
  state : ViewState := .TASK_LIST
  tasks : List Task := []
  task_index : Int := 0
  action_index : Int := 0
  actions : List ActionItem := actionItemList
  delete_confirmed : Bool := false
  completing_progress : ℚ := 0
  history : List CompletionRecord := []
  history_index : Int := 0
  setting_index : Int := 0
  screen_timeout_enabled : Bool := true
deriving DecidableEq, Repr

/-- The `ViewContext()` built by `ViewNavigator.__init__` (all defaults). -/
def initialContext : ViewContext := {}

/-- Python list indexing `xs[i]` on a signed index: `none` is `IndexError`.
Negative indices address from the end, as in Python. -/
def pyGet {α : Type} (xs : List α) (i : Int) : Option α :=
  if 0 ≤ i then xs.get? i.toNat
  else if 0 ≤ (xs.length : Int) + i then xs.get? ((xs.length : Int) + i).toNat
  else none

/-- views.py `ViewContext.current_task`: the selected task, or `none` when
`task_index` is out of range. -/
def ViewContext.current_task (ctx : ViewContext) : Option Task :=
  if 0 ≤ ctx.task_index ∧ ctx.task_index < (ctx.tasks.length : Int) then
    ctx.tasks.get? ctx.task_index.toNat
  else none

/-- views.py `ViewNavigator.set_tasks`: install a fresh task snapshot,
forcing `EMPTY` on an empty list, clamping the index from above, and leaving
`EMPTY` when tasks reappear. -/
def set_tasks (ctx : ViewContext) (tasks : List Task) : ViewContext :=
  let c1 : ViewContext := { ctx with tasks := tasks }
  if tasks.isEmpty then
    { c1 with state := .EMPTY }
  else
    let c2 : ViewContext :=
      if (tasks.length : Int) ≤ c1.task_index then
        { c1 with task_index := (tasks.length : Int) - 1 }
      else c1
    if c2.state = .EMPTY then { c2 with state := .TASK_LIST } else c2

/-- views.py `ViewNavigator.set_history`. -/
def set_history (ctx : ViewContext) (history : List CompletionRecord) :
    ViewContext :=
  { ctx with history := history, history_index := 0 }

/-- views.py `ViewNavigator.complete_animation_done`. -/
def complete_animation_done (ctx : ViewContext) : ViewContext :=
  { ctx with state := .TASK_LIST }

/-- views.py `ViewNavigator.handle_clockwise`.  `none` models the
`ZeroDivisionError` Python would raise in `TASK_ACTIONS` were the action
list empty (`% len(ctx.actions)` is unguarded there); every other branch is
total.  States with no matching branch fall through unchanged. -/
def handle_clockwise (ctx : ViewContext) : Option ViewContext :=
  match ctx.state with
  | .TASK_LIST =>
      if ctx.tasks.isEmpty then some ctx
      else some { ctx with
        task_index := (ctx.task_index + 1) % (ctx.tasks.length : Int) }
  | .TASK_ACTIONS =>
      if ctx.actions.isEmpty then none
      else some { ctx with
        action_index := (ctx.action_index + 1) % (ctx.actions.length : Int) }
  | .DELETE_CONFIRM =>
      some { ctx with delete_confirmed := !ctx.delete_confirmed }
  | .TASK_HISTORY =>
      if ctx.history.isEmpty then some ctx
      else some { ctx with
        history_index :=
          min (ctx.history_index + 1) ((ctx.history.length : Int) - 1) }
  | .SETTINGS =>
      some { ctx with
        setting_index :=
          min (ctx.setting_index + 1) ((settingItemList.length : Int) - 1) }
  | _ => some ctx

/-- views.py `ViewNavigator.handle_counter_clockwise`.  Note the source has
no emptiness guard on the `TASK_HISTORY` branch (`max` needs none). -/
def handle_counter_clockwise (ctx : ViewContext) : Option ViewContext :=
  match ctx.state with
  | .TASK_LIST =>
      if ctx.tasks.isEmpty then some ctx
      else some { ctx with
        task_index := (ctx.task_index - 1) % (ctx.tasks.length : Int) }
  | .TASK_ACTIONS =>
      if ctx.actions.isEmpty then none
      else some { ctx with
        action_index := (ctx.action_index - 1) % (ctx.actions.length : Int) }
  | .DELETE_CONFIRM =>
      some { ctx with delete_confirmed := !ctx.delete_confirmed }
  | .TASK_HISTORY =>
      some { ctx with history_index := max (ctx.history_index - 1) 0 }
  | .SETTINGS =>
      some { ctx with setting_index := max (ctx.setting_index - 1) 0 }
  | _ => some ctx

/-- views.py `ViewNavigator.handle_press`.  The returned string is the
source's action signal ("complete", "load_history", "delete", "show_qr",
"toggle_timeout"); `none` in the outer `Option` models the `IndexError`
Python would raise on `ctx.actions[ctx.action_index]` or
`settings[ctx.setting_index]` with an out-of-range index. -/
def handle_press (ctx : ViewContext) : Option (ViewContext × Option String) :=
  match ctx.state with
  | .TASK_LIST =>
      if ctx.tasks.isEmpty then some (ctx, none)
      else some ({ ctx with action_index := 0, state := .TASK_ACTIONS }, none)
  | .TASK_ACTIONS =>
      match pyGet ctx.actions ctx.action_index with
      | none => none
      | some .DONE =>
          some ({ ctx with completing_progress := 0, state := .COMPLETING },
            some "complete")
      | some .HISTORY =>
          some ({ ctx with history_index := 0, state := .TASK_HISTORY },
            some "load_history")
      | some .DELETE =>
          some ({ ctx with delete_confirmed := false
                           state := .DELETE_CONFIRM }, none)
      | some .BACK =>
          some ({ ctx with state := .TASK_LIST }, none)
  | .DELETE_CONFIRM =>
      if ctx.delete_confirmed then
        some ({ ctx with state := .TASK_LIST }, some "delete")
      else
        some ({ ctx with state := .TASK_ACTIONS }, none)
  | .TASK_HISTORY =>
      some ({ ctx with state := .TASK_ACTIONS }, none)
  | .SETTINGS =>
      match pyGet settingItemList ctx.setting_index with
      | none => none
      | some .MANAGE_TASKS =>
          some ({ ctx with state := .QR_CODE }, some "show_qr")
      | some .SCREEN_TIMEOUT =>
          some ({ ctx with screen_timeout_enabled := !ctx.screen_timeout_enabled },
            some "toggle_timeout")
      | some .BACK =>
          some ({ ctx with state := .TASK_LIST }, none)
  | _ => some (ctx, none)

/-- views.py `ViewNavigator.handle_long_press`.  Every branch is total; the
`COMPLETING` branch is the source's explicit `pass`, and `EMPTY` falls
through the `elif` chain unchanged. -/
def handle_long_press (ctx : ViewContext) :
    Option (ViewContext × Option String) :=
  match ctx.state with
  | .TASK_LIST =>
      some ({ ctx with setting_index := 0, state := .SETTINGS }, none)
  | .QR_CODE =>
      some ({ ctx with state := .SETTINGS }, none)
  | .TASK_ACTIONS | .DELETE_CONFIRM | .TASK_HISTORY | .SETTINGS =>
      some ({ ctx with state := .TASK_LIST }, none)
  | .COMPLETING =>
      some (ctx, none)
  | .EMPTY =>
      some (ctx, none)

/-- `n`-fold application of an `Option`-valued handler (used to state the
rotation-algebra properties), stopping on an exception. -/
def iterateHandler (f : ViewContext → Option ViewContext) :
    Nat → ViewContext → Option ViewContext
  | 0, ctx => some ctx
  | n + 1, ctx => (f ctx).bind (iterateHandler f n)

/-- The contexts the single long-lived `ViewNavigator.ctx` can actually be
in: the initial `ViewContext()`, closed under every mutation the source
performs on it (`set_tasks`, `set_history`, `complete_animation_done`, the
four event handlers; `KioskApp._complete_current_task` additionally writes
`completing_progress` during the animation). -/
inductive Reachable : ViewContext → Prop where
  | init : Reachable initialContext
  | tasks (c : ViewContext) (ts : List Task) :
      Reachable c → Reachable (set_tasks c ts)
  | history (c : ViewContext) (h : List CompletionRecord) :
      Reachable c → Reachable (set_history c h)
  | anim (c : ViewContext) :
      Reachable c → Reachable (complete_animation_done c)
  | progress (c : ViewContext) (p : ℚ) :
      Reachable c → Reachable { c with completing_progress := p }
  | cw (c c' : ViewContext) :
      Reachable c → handle_clockwise c = some c' → Reachable c'
  | ccw (c c' : ViewContext) :
      Reachable c → handle_counter_clockwise c = some c' → Reachable c'
  | press (c c' : ViewContext) (a : Option String) :
      Reachable c → handle_press c = some (c', a) → Reachable c'
  | long (c c' : ViewContext) (a : Option String) :
      Reachable c → handle_long_press c = some (c', a) → Reachable c'

/-- The navigation invariant: the action list is never reassigned from its
default, and the two menu indices stay inside their menus. -/
def NavInv (c : ViewContext) : Prop :=
  c.actions = actionItemList ∧
  0 ≤ c.action_index ∧ c.action_index < 4 ∧
  0 ≤ c.setting_index ∧ c.setting_index < 3

/-! ## main.py — intent dispatch against a failing Task Store

`KioskApp._handle_event("press")` first runs `nav.handle_press()` (which
already performs the view transition) and only then dispatches on the
returned action string to `_complete_current_task` / `_delete_current_task`
/ `_load_history`, each of which calls the `Database`.  The model below
follows that dispatch in the world where every `Database` call raises
(`StoreFailure`): the raise propagates out of `_handle_event`, leaving the
already-mutated navigator context behind. -/

/-- Outcome of one `_handle_event("press")` call: `ok c` = returned
normally with navigator context `c`; `raised c` = an exception propagated
while the navigator context was `c`. -/
inductive FlowResult where
  | ok (c : ViewContext)
  | raised (c : ViewContext)
deriving DecidableEq, Repr

/-- The navigator context held in a `FlowResult`. -/
def FlowResult.ctx : FlowResult → ViewContext
  | .ok c => c
  | .raised c => c

/-- main.py `KioskApp._handle_event("press")` when every Task Store call
raises.  `animFinal` is the last `completing_progress` value the blocking
animation loop in `_complete_current_task` wrote before the
`db.complete_task` call raised (its exact value depends on wall-clock
timing).  Each helper returns early without touching the store when
`current_task` is `None`. -/
def handle_event_press_store_raises (ctx : ViewContext) (animFinal : ℚ) :
    FlowResult :=
  match handle_press ctx with
  | none => .raised ctx
  | some (c1, action) =>
    match action with
    | none => .ok c1
    | some a =>
      if a = "complete" then
        -- _complete_current_task: animation, then db.complete_task raises
        match c1.current_task with
        | none => .ok c1
        | some _ => .raised { c1 with completing_progress := animFinal }
      else if a = "delete" then
        -- _delete_current_task: db.delete_task raises
        match c1.current_task with
        | none => .ok c1
        | some _ => .raised c1
      else if a = "load_history" then
        -- _load_history: db.get_task_history raises before set_history runs
        match c1.current_task with
        | none => .ok c1
        | some _ => .raised c1
      else
        -- "toggle_timeout" only prints; "show_qr" is a pass
        .ok c1

/-! ## encoder.py — button classifier -/

/-- encoder.py `BUTTON_DEBOUNCE` (seconds). -/
def BUTTON_DEBOUNCE : ℚ := 0.2

/-- encoder.py `LONG_PRESS_TIME` (seconds). -/
def LONG_PRESS_TIME : ℚ := 0.5

/-- The classifier's mutable globals in encoder.py: `last_button_time` and
`button_press_time`, both initialised to `0` at module load.  (The
`record_activity` backlight side channel touches disjoint globals and is
not part of the classification contract.) -/
structure ButtonState where
  last_button_time : ℚ := 0
  button_press_time : ℚ := 0
deriving DecidableEq, Repr

/-- Events emitted by the classifier (the source sends Escape / Return key
events at these two points). -/
inductive ButtonEvent where
  | LongPress
  | ShortPress
deriving DecidableEq, Repr

/-- encoder.py `on_button_pressed` at wall-clock time `now`: records the
press timestamp and emits nothing (classification is release-only). -/
def on_button_pressed (s : ButtonState) (now : ℚ) : ButtonState :=
  { s with button_press_time := now }

/-- encoder.py `on_button_released` at wall-clock time `now`: discard the
release inside the debounce window (state untouched, nothing emitted);
otherwise record the release time and classify by held duration. -/
def on_button_released (s : ButtonState) (now : ℚ) :
    ButtonState × Option ButtonEvent :=
  if now - s.last_button_time < BUTTON_DEBOUNCE then
    (s, none)
  else
    let s' : ButtonState := { s with last_button_time := now }
    let press_duration := now - s.button_press_time
    if LONG_PRESS_TIME ≤ press_duration then
      (s', some .LongPress)
    else
      (s', some .ShortPress)

/-- One raw edge of the (already hardware-debounced, `bounce_time=0.05`)
button input, with its wall-clock time. -/
inductive ButtonEdge where
  | pressEdge (t : ℚ)
  | releaseEdge (t : ℚ)
deriving DecidableEq, Repr

/-- Run the two gpiozero callbacks over a sequence of edges, numbering
presses and tagging every emitted event with the number of the press whose
timestamp classified it.  `n` counts the presses seen so far. -/
def runButton (s : ButtonState) (n : Nat) :
    List ButtonEdge → List (Nat × ButtonEvent)
  | [] => []
  | .pressEdge t :: rest =>
      runButton (on_button_pressed s t) (n + 1) rest
  | .releaseEdge t :: rest =>
      match on_button_released s t with
      | (s', none) => runButton s' n rest
      | (s', some e) => (n, e) :: runButton s' n rest

/-- Whether a trace begins with a release edge. -/
def startsWithRelease : List ButtonEdge → Bool
  | .releaseEdge _ :: _ => true
  | _ => false

/-- A gpiozero `Button` with `when_pressed`/`when_released` callbacks never
delivers two release edges without a press edge between them; this predicate
captures that shape of the input trace. -/
def noDoubleRelease : List ButtonEdge → Bool
  | [] => true
  | .pressEdge _ :: rest => noDoubleRelease rest
  | .releaseEdge _ :: rest => !startsWithRelease rest && noDoubleRelease rest

/-! ## Concrete sample data (for witnesses and counterexamples) -/

/-- A concrete task used to build concrete contexts. -/
def sampleTask : Task :=
  { id := 1, name := "water plants", recurrence_type := .DAILY,
    recurrence_value := 3, next_due_date := 20000,
    created_at := 0, updated_at := 0 }

/-- A concrete completion record used to build concrete contexts. -/
def sampleRecord : CompletionRecord :=
  { id := 1, task_id := 1, completed_at := 0, days_since_last := none }

/-! ## Theorems -/

/-- C1: for every recurrence kind, positive value `v`, and previous due
date `d`, the next due date computed on completion is `d + v` (daily),
`d + 7v` (weekly), `d + 30v` (monthly), `d + 365v` (yearly); and
`complete_task`'s schedule update is a function of the task's previous
next-due date only — the completion timestamp `now` does not enter it. -/
theorem completion_reschedules_from_previous_due (d v : Int) (_hv : 0 < v) :
    (calculate_next_due_from_date d .DAILY v = d + v ∧
     calculate_next_due_from_date d .WEEKLY v = d + v * 7 ∧
     calculate_next_due_from_date d .MONTHLY v = d + v * 30 ∧
     calculate_next_due_from_date d .YEARLY v = d + v * 365) ∧
    ∀ (t : Task) (now1 now2 : ℚ),
      complete_task_next_due t now1 = complete_task_next_due t now2 ∧
      complete_task_next_due t now1 =
        calculate_next_due_from_date t.next_due_date t.recurrence_type
          t.recurrence_value := by
  exact ⟨⟨rfl, rfl, rfl, rfl⟩, fun t now1 now2 => ⟨rfl, rfl⟩⟩

/-- Witness for C1 at `d = 100`, `v = 2`, and a concrete task. -/
theorem completion_reschedules_from_previous_due_witness :
    calculate_next_due_from_date 100 .MONTHLY 2 = 100 + 2 * 30 :=
  (completion_reschedules_from_previous_due 100 2 (by decide)).1.2.2.1

/-- C2: urgency is a pure total function of the integer days-until-due:
negative gives `OVERDUE`, `0` gives `TODAY`, `1` gives `TOMORROW`,
`2..7` gives `WEEK`, and above `7` gives `UPCOMING`.  (`Urgency.from_days`
is a total Lean function, so no input can raise.) -/
theorem urgency_pure_total_classification (d : Int) :
    (d < 0 → Urgency.from_days d = .OVERDUE) ∧
    (d = 0 → Urgency.from_days d = .TODAY) ∧
    (d = 1 → Urgency.from_days d = .TOMORROW) ∧
    (2 ≤ d → d ≤ 7 → Urgency.from_days d = .WEEK) ∧
    (7 < d → Urgency.from_days d = .UPCOMING) := by
  refine ⟨fun h => ?_, fun h => ?_, fun h => ?_, fun h1 h2 => ?_, fun h => ?_⟩ <;>
    simp only [Urgency.from_days] <;> split_ifs <;> first | rfl | omega

/-- Witness for C2: one concrete input per classification band. -/
theorem urgency_pure_total_classification_witness :
    Urgency.from_days (-3) = .OVERDUE ∧
    Urgency.from_days 0 = .TODAY ∧
    Urgency.from_days 1 = .TOMORROW ∧
    Urgency.from_days 5 = .WEEK ∧
    Urgency.from_days 12 = .UPCOMING :=
  ⟨(urgency_pure_total_classification (-3)).1 (by decide),
   (urgency_pure_total_classification 0).2.1 rfl,
   (urgency_pure_total_classification 1).2.2.1 rfl,
   (urgency_pure_total_classification 5).2.2.2.1 (by decide) (by decide),
   (urgency_pure_total_classification 12).2.2.2.2 (by decide)⟩

/-- C10: in every state, both rotation handlers leave the `state` field of
the context unchanged — rotation only moves selections or toggles the
confirm flag, never the current view. -/
theorem rotation_preserves_state :
    (∀ c c' : ViewContext, handle_clockwise c = some c' →
      c'.state = c.state) ∧
    (∀ c c' : ViewContext, handle_counter_clockwise c = some c' →
      c'.state = c.state) := by
  constructor <;> intro c c' h <;>
    [unfold handle_clockwise at h; unfold handle_counter_clockwise at h] <;>
    split at h <;> (try split_ifs at h) <;> (injection h with h; subst h; rfl)

/-- Witness for C10: applied to the initial context (where clockwise
rotation is a no-op because the task list is empty). -/
theorem rotation_preserves_state_witness :
    initialContext.state = initialContext.state :=
  rotation_preserves_state.1 initialContext initialContext (by decide)

/-- C5: the delete-confirmation protocol.  Entering `DELETE_CONFIRM`
(short-press on the `Delete` action in `TASK_ACTIONS`) always resets the
confirm flag to false; in `DELETE_CONFIRM` both rotation directions negate
the flag; a short-press with the flag true goes to `TASK_LIST` emitting the
"delete" intent, and with the flag false goes back to `TASK_ACTIONS`
emitting nothing. -/
theorem delete_confirm_protocol (ctx : ViewContext) :
    (ctx.state = .TASK_ACTIONS →
      pyGet ctx.actions ctx.action_index = some .DELETE →
      handle_press ctx = some ({ ctx with delete_confirmed := false
                                          state := .DELETE_CONFIRM }, none)) ∧
    (ctx.state = .DELETE_CONFIRM →
      handle_clockwise ctx =
        some { ctx with delete_confirmed := !ctx.delete_confirmed } ∧
      handle_counter_clockwise ctx =
        some { ctx with delete_confirmed := !ctx.delete_confirmed }) ∧
    (ctx.state = .DELETE_CONFIRM → ctx.delete_confirmed = true →
      handle_press ctx = some ({ ctx with state := .TASK_LIST },
        some "delete")) ∧
    (ctx.state = .DELETE_CONFIRM → ctx.delete_confirmed = false →
      handle_press ctx = some ({ ctx with state := .TASK_ACTIONS }, none)) := by
  refine ⟨fun hs ha => ?_, fun hs => ⟨?_, ?_⟩, fun hs hd => ?_, fun hs hd => ?_⟩ <;>
    simp [handle_press, handle_clockwise, handle_counter_clockwise, hs, *]

/-- Witness for C5 at concrete `DELETE_CONFIRM` contexts. -/
theorem delete_confirm_protocol_witness :
    handle_press { initialContext with state := .DELETE_CONFIRM
                                       delete_confirmed := true } =
      some ({ initialContext with state := .TASK_LIST
                                  delete_confirmed := true }, some "delete") ∧
    handle_press { initialContext with state := .DELETE_CONFIRM } =
      some ({ initialContext with state := .TASK_ACTIONS }, none) ∧
    handle_clockwise { initialContext with state := .DELETE_CONFIRM } =
      some { initialContext with state := .DELETE_CONFIRM
                                 delete_confirmed := true } :=
  ⟨(delete_confirm_protocol _).2.2.1 rfl rfl,
   (delete_confirm_protocol _).2.2.2 rfl rfl,
   ((delete_confirm_protocol _).2.1 rfl).1⟩

/-- C9: in `TASK_HISTORY` with non-empty history of length `L` and a
selected index inside `[0, L-1]`, rotation moves the index by one, clamped
(not wrapped) to `[0, L-1]`: clockwise at `L-1` stays put and
counter-clockwise at `0` stays put; likewise in `SETTINGS` the index is
clamped to `[0, settings count - 1]`. -/
theorem history_settings_rotation_clamped (ctx : ViewContext) :
    (ctx.state = .TASK_HISTORY → 0 < ctx.history.length →
     0 ≤ ctx.history_index →
     ctx.history_index < (ctx.history.length : Int) →
      (handle_clockwise ctx = some { ctx with history_index := min (ctx.history_index + 1) ((ctx.history.length : Int) - 1) } ∧
       0 ≤ min (ctx.history_index + 1) ((ctx.history.length : Int) - 1) ∧
       min (ctx.history_index + 1) ((ctx.history.length : Int) - 1) <
         (ctx.history.length : Int)) ∧
      (handle_counter_clockwise ctx =
        some { ctx with history_index := max (ctx.history_index - 1) 0 } ∧
       0 ≤ max (ctx.history_index - 1) 0 ∧
       max (ctx.history_index - 1) 0 < (ctx.history.length : Int)) ∧
      (ctx.history_index = (ctx.history.length : Int) - 1 →
        handle_clockwise ctx = some ctx) ∧
      (ctx.history_index = 0 → handle_counter_clockwise ctx = some ctx)) ∧
    (ctx.state = .SETTINGS → 0 ≤ ctx.setting_index →
     ctx.setting_index < (settingItemList.length : Int) →
      (handle_clockwise ctx = some { ctx with setting_index := min (ctx.setting_index + 1) ((settingItemList.length : Int) - 1) } ∧
       0 ≤ min (ctx.setting_index + 1) ((settingItemList.length : Int) - 1) ∧
       min (ctx.setting_index + 1) ((settingItemList.length : Int) - 1) <
         (settingItemList.length : Int)) ∧
      (handle_counter_clockwise ctx =
        some { ctx with setting_index := max (ctx.setting_index - 1) 0 } ∧
       0 ≤ max (ctx.setting_index - 1) 0 ∧
       max (ctx.setting_index - 1) 0 < (settingItemList.length : Int)) ∧
      (ctx.setting_index = (settingItemList.length : Int) - 1 →
        handle_clockwise ctx = some ctx) ∧
      (ctx.setting_index = 0 → handle_counter_clockwise ctx = some ctx)) := by
  have hne : ∀ h1 : 0 < ctx.history.length, ¬ctx.history.isEmpty := by
    intro h1
    cases hh : ctx.history with
    | nil => rw [hh] at h1; simp at h1
    | cons a l => simp [hh, List.isEmpty]
  constructor
  · intro hs h1 h2 h3
    have hcw : handle_clockwise ctx = some { ctx with history_index := min (ctx.history_index + 1) ((ctx.history.length : Int) - 1) } := by
      simp [handle_clockwise, hs, hne h1]
    have hccw : handle_counter_clockwise ctx = some { ctx with history_index := max (ctx.history_index - 1) 0 } := by
      simp [handle_counter_clockwise, hs]
    refine ⟨⟨hcw, by omega, by omega⟩, ⟨hccw, by omega, by omega⟩,
      fun he => ?_, fun he => ?_⟩
    · have hmin : min (ctx.history_index + 1) ((ctx.history.length : Int) - 1)
          = ctx.history_index := by omega
      rw [hcw, hmin]
    · have hmax : max (ctx.history_index - 1) 0 = ctx.history_index := by
        omega
      rw [hccw, hmax]
  · intro hs h2 h3
    have hlen : (settingItemList.length : Int) = 3 := by
      simp [settingItemList]
    have hcw : handle_clockwise ctx = some { ctx with setting_index := min (ctx.setting_index + 1) ((settingItemList.length : Int) - 1) } := by
      simp [handle_clockwise, hs]
    have hccw : handle_counter_clockwise ctx = some { ctx with setting_index := max (ctx.setting_index - 1) 0 } := by
      simp [handle_counter_clockwise, hs]
    refine ⟨⟨hcw, by omega, by omega⟩, ⟨hccw, by omega, by omega⟩,
      fun he => ?_, fun he => ?_⟩
    · have hmin : min (ctx.setting_index + 1) ((settingItemList.length : Int) - 1)
          = ctx.setting_index := by omega
      rw [hcw, hmin]
    · have hmax : max (ctx.setting_index - 1) 0 = ctx.setting_index := by omega
      rw [hccw, hmax]

/-- Witness for C9 at a concrete two-entry history with the index at the
top, and a concrete settings context at the last entry. -/
theorem history_settings_rotation_clamped_witness :
    handle_clockwise { initialContext with state := .TASK_HISTORY
                                           history := [sampleRecord, sampleRecord]
                                           history_index := 1 } =
      some { initialContext with state := .TASK_HISTORY
                                 history := [sampleRecord, sampleRecord]
                                 history_index := 1 } ∧
    handle_clockwise { initialContext with state := .SETTINGS
                                           setting_index := 2 } =
      some { initialContext with state := .SETTINGS, setting_index := 2 } :=
  ⟨((history_settings_rotation_clamped _).1 rfl (by decide) (by decide)
      (by decide)).2.2.1 (by decide),
   ((history_settings_rotation_clamped _).2 rfl (by decide)
      (by decide)).2.2.1 (by decide)⟩

/-- In `TASK_LIST` with a non-empty snapshot, clockwise rotation advances
the selected index modulo the task count. -/
lemma handle_clockwise_task_list (ctx : ViewContext)
    (hs : ctx.state = .TASK_LIST) (hne : ¬ctx.tasks.isEmpty) :
    handle_clockwise ctx = some { ctx with task_index := (ctx.task_index + 1) % (ctx.tasks.length : Int) } := by
  simp [handle_clockwise, hs, hne]

/-- In `TASK_LIST` with a non-empty snapshot, counter-clockwise rotation
retreats the selected index modulo the task count. -/
lemma handle_counter_clockwise_task_list (ctx : ViewContext)
    (hs : ctx.state = .TASK_LIST) (hne : ¬ctx.tasks.isEmpty) :
    handle_counter_clockwise ctx = some { ctx with task_index := (ctx.task_index - 1) % (ctx.tasks.length : Int) } := by
  simp [handle_counter_clockwise, hs, hne]

/-- A non-empty list is not `isEmpty`. -/
lemma not_isEmpty_of_length_pos {α : Type} {xs : List α}
    (h : 0 < xs.length) : ¬xs.isEmpty := by
  cases xs with
  | nil => simp at h
  | cons a l => simp [List.isEmpty]

/-- `N`-fold clockwise rotation in `TASK_LIST` adds `N` modulo the task
count. -/
lemma iterate_clockwise_task_list (N : Nat) :
    ∀ ctx : ViewContext, ctx.state = .TASK_LIST → 0 < ctx.tasks.length →
    0 ≤ ctx.task_index → ctx.task_index < (ctx.tasks.length : Int) →
    iterateHandler handle_clockwise N ctx = some { ctx with task_index := (ctx.task_index + N) % (ctx.tasks.length : Int) } := by
  induction N with
  | zero =>
      intro ctx hs hlen h0 hlt
      rw [iterateHandler]
      rw [show ((0 : Nat) : Int) = 0 from rfl, add_zero,
        Int.emod_eq_of_lt h0 hlt]
  | succ n ih =>
      intro ctx hs hlen h0 hlt
      have hpos : (0 : Int) < (ctx.tasks.length : Int) := by
        exact_mod_cast hlen
      rw [iterateHandler,
        handle_clockwise_task_list ctx hs (not_isEmpty_of_length_pos hlen),
        Option.some_bind]
      rw [ih { ctx with task_index := (ctx.task_index + 1) % (ctx.tasks.length : Int) } hs hlen
        (Int.emod_nonneg _ (ne_of_gt hpos)) (Int.emod_lt_of_pos _ hpos)]
      have harith :
          ((ctx.task_index + 1) % (ctx.tasks.length : Int) + (n : Int)) %
              (ctx.tasks.length : Int) =
            (ctx.task_index + ((n + 1 : Nat) : Int)) %
              (ctx.tasks.length : Int) := by
        rw [Int.add_emod ((ctx.task_index + 1) % (ctx.tasks.length : Int)) (n : Int),
          Int.emod_emod_of_dvd _ dvd_rfl, ← Int.add_emod]
        congr 1
        push_cast
        ring
      rw [harith]

/-- `N`-fold counter-clockwise rotation in `TASK_LIST` subtracts `N`
modulo the task count. -/
lemma iterate_counter_clockwise_task_list (N : Nat) :
    ∀ ctx : ViewContext, ctx.state = .TASK_LIST → 0 < ctx.tasks.length →
    0 ≤ ctx.task_index → ctx.task_index < (ctx.tasks.length : Int) →
    iterateHandler handle_counter_clockwise N ctx = some { ctx with task_index := (ctx.task_index - N) % (ctx.tasks.length : Int) } := by
  induction N with
  | zero =>
      intro ctx hs hlen h0 hlt
      rw [iterateHandler]
      rw [show ((0 : Nat) : Int) = 0 from rfl, sub_zero,
        Int.emod_eq_of_lt h0 hlt]
  | succ n ih =>
      intro ctx hs hlen h0 hlt
      have hpos : (0 : Int) < (ctx.tasks.length : Int) := by
        exact_mod_cast hlen
      rw [iterateHandler,
        handle_counter_clockwise_task_list ctx hs
          (not_isEmpty_of_length_pos hlen),
        Option.some_bind]
      rw [ih { ctx with task_index := (ctx.task_index - 1) % (ctx.tasks.length : Int) } hs hlen
        (Int.emod_nonneg _ (ne_of_gt hpos)) (Int.emod_lt_of_pos _ hpos)]
      have harith :
          ((ctx.task_index - 1) % (ctx.tasks.length : Int) - (n : Int)) %
              (ctx.tasks.length : Int) =
            (ctx.task_index - ((n + 1 : Nat) : Int)) %
              (ctx.tasks.length : Int) := by
        rw [Int.sub_emod ((ctx.task_index - 1) % (ctx.tasks.length : Int)) (n : Int),
          Int.emod_emod_of_dvd _ dvd_rfl, ← Int.sub_emod]
        congr 1
        push_cast
        ring
      rw [harith]

/-- C4: in `TASK_LIST` with `M > 0` tasks and a selected index
`i ∈ [0, M-1]`, `N` clockwise rotations land on `(i + N) mod M` and `N`
counter-clockwise rotations land on `(i - N) mod M`; with an empty task
list either rotation leaves the context unchanged. -/
theorem task_list_rotation_modular (ctx : ViewContext) (N : Nat)
    (hs : ctx.state = .TASK_LIST) :
    (0 < ctx.tasks.length → 0 ≤ ctx.task_index →
     ctx.task_index < (ctx.tasks.length : Int) →
      iterateHandler handle_clockwise N ctx = some { ctx with task_index := (ctx.task_index + N) % (ctx.tasks.length : Int) } ∧
      iterateHandler handle_counter_clockwise N ctx = some { ctx with task_index := (ctx.task_index - N) % (ctx.tasks.length : Int) }) ∧
    (ctx.tasks = [] →
      handle_clockwise ctx = some ctx ∧
      handle_counter_clockwise ctx = some ctx) := by
  constructor
  · intro hlen h0 hlt
    exact ⟨iterate_clockwise_task_list N ctx hs hlen h0 hlt,
      iterate_counter_clockwise_task_list N ctx hs hlen h0 hlt⟩
  · intro hnil
    constructor <;> simp [handle_clockwise, handle_counter_clockwise, hs, hnil]

/-- Witness for C4: three tasks, index 1, four clockwise steps land on
`(1 + 4) mod 3`; and the empty-list no-op at the initial context. -/
theorem task_list_rotation_modular_witness :
    iterateHandler handle_clockwise 4
        { initialContext with tasks := [sampleTask, sampleTask, sampleTask]
                              task_index := 1 } =
      some { initialContext with tasks := [sampleTask, sampleTask, sampleTask]
                                 task_index := (1 + (4 : Nat)) % (3 : Int) } ∧
    handle_clockwise initialContext = some initialContext :=
  ⟨(((task_list_rotation_modular
      { initialContext with tasks := [sampleTask, sampleTask, sampleTask]
                            task_index := 1 } 4 rfl).1)
      (by decide) (by decide) (by decide)).1,
   ((task_list_rotation_modular initialContext 4 rfl).2 rfl).1⟩

/-- C6 counterexample: `set_tasks` clamps the selected task index only
from above (`task_index >= len(tasks)`), so a context whose index is `-1`
refreshed with one task keeps index `-1`, outside `[0, N-1]` — refuting the
claim that the index is clamped into range "in all cases" with `N > 0`. -/
theorem set_tasks_negative_index_not_clamped_cex :
    (set_tasks { initialContext with task_index := -1 } [sampleTask]).tasks.length = 1 ∧
    (set_tasks { initialContext with task_index := -1 } [sampleTask]).task_index = -1 ∧
    ¬(0 ≤ (set_tasks { initialContext with task_index := -1 } [sampleTask]).task_index) := by
  refine ⟨rfl, rfl, by decide⟩

/-- C6 amended: refreshing with `N = 0` tasks forces `EMPTY`; refreshing a
previously-`EMPTY` context with `N > 0` tasks moves it to `TASK_LIST`; with
`N > 0` the selected index becomes `min(old, N-1)` — clamped from above
only — so it lands in `[0, N-1]` whenever the old index was nonnegative
(which holds in every reachable context); a negative index is left
unchanged. -/
theorem set_tasks_refresh_amended (ctx : ViewContext) (ts : List Task) :
    (ts = [] → (set_tasks ctx ts).state = .EMPTY) ∧
    (ts ≠ [] → ctx.state = .EMPTY → (set_tasks ctx ts).state = .TASK_LIST) ∧
    (ts ≠ [] → (set_tasks ctx ts).task_index = min ctx.task_index ((ts.length : Int) - 1)) ∧
    (ts ≠ [] → 0 ≤ ctx.task_index →
      0 ≤ (set_tasks ctx ts).task_index ∧
      (set_tasks ctx ts).task_index < (ts.length : Int)) := by
  cases ts with
  | nil =>
      refine ⟨fun _ => ?_, fun h => absurd rfl h, fun h => absurd rfl h,
        fun h => absurd rfl h⟩
      simp [set_tasks]
  | cons t l =>
      have hlen : (0 : Int) < ((t :: l).length : Int) := by
        simp
      refine ⟨fun h => absurd h (by simp), fun _ hemp => ?_, fun _ => ?_,
        fun _ h0 => ?_⟩
      · simp only [set_tasks, List.isEmpty, if_false]
        split_ifs <;> simp_all
      · simp only [set_tasks, List.isEmpty, if_false]
        split_ifs with hclamp hemp hemp <;> simp_all <;> omega
      · simp only [set_tasks, List.isEmpty, if_false]
        split_ifs with hclamp hemp hemp <;> simp_all

/-- Witness for C6 (amended) at a concrete refresh: an `EMPTY` context with
index 5 refreshed with two tasks lands in `TASK_LIST` at index 1. -/
theorem set_tasks_refresh_amended_witness :
    (set_tasks { initialContext with state := .EMPTY, task_index := 5 }
        [sampleTask, sampleTask]).state = .TASK_LIST ∧
    (set_tasks { initialContext with state := .EMPTY, task_index := 5 }
        [sampleTask, sampleTask]).task_index = min 5 ((2 : Int) - 1) :=
  ⟨(set_tasks_refresh_amended _ _).2.1 (by decide) rfl,
   (set_tasks_refresh_amended _ _).2.2.1 (by decide)⟩

/-- C3 counterexample: in `DELETE_CONFIRM` with the flag confirmed and a
task selected, a short-press whose subsequent `db.delete_task` call raises
leaves the navigator in `TASK_LIST` — `handle_press` performed the
transition when it emitted the "delete" intent, before the store was ever
called, so the machine does NOT remain in the pre-intent state
(`DELETE_CONFIRM`). -/
theorem failed_store_pre_intent_state_cex :
    ({ initialContext with state := .DELETE_CONFIRM
                           delete_confirmed := true
                           tasks := [sampleTask] } : ViewContext).state =
      .DELETE_CONFIRM ∧
    (handle_event_press_store_raises
        { initialContext with state := .DELETE_CONFIRM
                              delete_confirmed := true
                              tasks := [sampleTask] } 0).ctx.state =
      .TASK_LIST ∧
    ViewState.TASK_LIST ≠ ViewState.DELETE_CONFIRM := by
  refine ⟨rfl, by decide, by decide⟩

/-- C3 amended: on an intent-emitting short-press the state machine
transitions at intent-emission time, before the Task Store call; a store
failure therefore leaves it in the POST-intent state — `TASK_LIST` after a
`Delete` intent, `COMPLETING` after a `Complete` intent — never in the
pre-intent state. -/
theorem failed_store_keeps_post_intent_state (ctx : ViewContext) (p : ℚ) :
    (ctx.state = .DELETE_CONFIRM → ctx.delete_confirmed = true →
      (handle_event_press_store_raises ctx p).ctx.state = .TASK_LIST) ∧
    (ctx.state = .TASK_ACTIONS →
      pyGet ctx.actions ctx.action_index = some .DONE →
      (handle_event_press_store_raises ctx p).ctx.state = .COMPLETING) := by
  constructor
  · intro hs hd
    have hpress : handle_press ctx =
        some ({ ctx with state := .TASK_LIST }, some "delete") := by
      simp [handle_press, hs, hd]
    unfold handle_event_press_store_raises
    rw [hpress]
    rw [show (some "delete" : Option String) = some "delete" from rfl]
    simp only [reduceIte]
    cases hct : ViewContext.current_task { ctx with state := ViewState.TASK_LIST } <;>
      simp [FlowResult.ctx]
  · intro hs ha
    have hpress : handle_press ctx =
        some ({ ctx with completing_progress := 0
                         state := .COMPLETING }, some "complete") := by
      simp [handle_press, hs, ha]
    unfold handle_event_press_store_raises
    rw [hpress]
    simp only [reduceIte]
    cases hct : ViewContext.current_task
        { ctx with completing_progress := 0, state := ViewState.COMPLETING } <;>
      simp [FlowResult.ctx]

/-- Witness for C3 (amended): the `Complete` intent against a raising
store, from a concrete `TASK_ACTIONS` context with the `Done` action
selected. -/
theorem failed_store_keeps_post_intent_state_witness :
    (handle_event_press_store_raises
        { initialContext with state := .TASK_ACTIONS
                              tasks := [sampleTask] } (1 / 2)).ctx.state =
      .COMPLETING :=
  (failed_store_keeps_post_intent_state
    { initialContext with state := .TASK_ACTIONS, tasks := [sampleTask] }
    (1 / 2)).2 rfl (by decide)

/-- `pyGet` succeeds on an in-range nonnegative index. -/
lemma pyGet_isSome_of_bounds {α : Type} (xs : List α) (i : Int)
    (h0 : 0 ≤ i) (hlt : i < (xs.length : Int)) : (pyGet xs i).isSome := by
  unfold pyGet
  rw [if_pos h0]
  have hnat : i.toNat < xs.length := by omega
  rw [List.get?_eq_get hnat]
  rfl

/-- The initial context satisfies the navigation invariant. -/
lemma navInv_initialContext : NavInv initialContext := by
  refine ⟨rfl, by decide, by decide, by decide, by decide⟩

/-- `set_tasks` touches only `tasks`, `task_index` and `state`, so it
preserves the navigation invariant. -/
lemma navInv_set_tasks (c : ViewContext) (ts : List Task) (h : NavInv c) :
    NavInv (set_tasks c ts) := by
  unfold set_tasks
  dsimp only
  split_ifs <;> exact h

/-- `set_history` touches only `history` and `history_index`. -/
lemma navInv_set_history (c : ViewContext) (hist : List CompletionRecord)
    (h : NavInv c) : NavInv (set_history c hist) := h

/-- `complete_animation_done` touches only `state`. -/
lemma navInv_complete_animation_done (c : ViewContext) (h : NavInv c) :
    NavInv (complete_animation_done c) := h

/-- Clockwise rotation preserves the navigation invariant. -/
lemma navInv_handle_clockwise (c c' : ViewContext) (h : NavInv c)
    (heq : handle_clockwise c = some c') : NavInv c' := by
  obtain ⟨hact, ha0, ha4, hs0, hs3⟩ := h
  have hlen : (c.actions.length : Int) = 4 := by rw [hact]; rfl
  unfold handle_clockwise at heq
  split at heq <;> (try split_ifs at heq) <;>
    (injection heq with heq; subst heq) <;>
    refine ⟨hact, ?_, ?_, ?_, ?_⟩ <;>
    simp only [settingItemList, List.length_cons, List.length_nil] at * <;>
    first
      | assumption
      | (rw [hlen]; exact Int.emod_nonneg _ (by norm_num))
      | (rw [hlen]; exact Int.emod_lt_of_pos _ (by norm_num))
      | omega

/-- Counter-clockwise rotation preserves the navigation invariant. -/
lemma navInv_handle_counter_clockwise (c c' : ViewContext) (h : NavInv c)
    (heq : handle_counter_clockwise c = some c') : NavInv c' := by
  obtain ⟨hact, ha0, ha4, hs0, hs3⟩ := h
  have hlen : (c.actions.length : Int) = 4 := by rw [hact]; rfl
  unfold handle_counter_clockwise at heq
  split at heq <;> (try split_ifs at heq) <;>
    (injection heq with heq; subst heq) <;>
    refine ⟨hact, ?_, ?_, ?_, ?_⟩ <;>
    simp only [settingItemList, List.length_cons, List.length_nil] at * <;>
    first
      | assumption
      | (rw [hlen]; exact Int.emod_nonneg _ (by norm_num))
      | (rw [hlen]; exact Int.emod_lt_of_pos _ (by norm_num))
      | omega

/-- A short-press preserves the navigation invariant. -/
lemma navInv_handle_press (c c' : ViewContext) (a : Option String)
    (h : NavInv c) (heq : handle_press c = some (c', a)) : NavInv c' := by
  obtain ⟨hact, ha0, ha4, hs0, hs3⟩ := h
  unfold handle_press at heq
  split at heq <;> (try split_ifs at heq) <;> (try split at heq) <;>
    first
      | (injection heq with hpair; injection hpair with h1 h2; subst h1;
         refine ⟨hact, ?_, ?_, ?_, ?_⟩ <;> dsimp only <;> omega)
      | exact absurd heq (by simp)

/-- A long-press preserves the navigation invariant. -/
lemma navInv_handle_long_press (c c' : ViewContext) (a : Option String)
    (h : NavInv c) (heq : handle_long_press c = some (c', a)) : NavInv c' := by
  obtain ⟨hact, ha0, ha4, hs0, hs3⟩ := h
  unfold handle_long_press at heq
  split at heq <;>
    (injection heq with hpair; injection hpair with h1 h2; subst h1) <;>
    refine ⟨hact, ?_, ?_, ?_, ?_⟩ <;> dsimp only <;> omega

/-- Every reachable context satisfies the navigation invariant. -/
lemma navInv_of_reachable (c : ViewContext) (h : Reachable c) : NavInv c := by
  induction h with
  | init => exact navInv_initialContext
  | tasks c ts _ ih => exact navInv_set_tasks c ts ih
  | history c hist _ ih => exact navInv_set_history c hist ih
  | anim c _ ih => exact navInv_complete_animation_done c ih
  | progress c p _ ih => exact ih
  | cw c c' _ heq ih => exact navInv_handle_clockwise c c' ih heq
  | ccw c c' _ heq ih => exact navInv_handle_counter_clockwise c c' ih heq
  | press c c' a _ heq ih => exact navInv_handle_press c c' a ih heq
  | long c c' a _ heq ih => exact navInv_handle_long_press c c' a ih heq

/-- C7: on every reachable context no event handler raises (in particular
the `ctx.actions[ctx.action_index]` and `settings[ctx.setting_index]`
lookups in `handle_press` are always in range because the two indices stay
within their menus), and an event with no matching transition for the
current state leaves the context unchanged and returns no intent. -/
theorem reachable_handlers_never_raise (c : ViewContext)
    (hr : Reachable c) :
    ((handle_clockwise c).isSome ∧ (handle_counter_clockwise c).isSome ∧
     (handle_press c).isSome ∧ (handle_long_press c).isSome) ∧
    (c.state = .COMPLETING ∨ c.state = .QR_CODE ∨ c.state = .EMPTY →
      handle_clockwise c = some c ∧ handle_counter_clockwise c = some c ∧
      handle_press c = some (c, none)) ∧
    (c.state = .EMPTY → handle_long_press c = some (c, none)) := by
  obtain ⟨hact, ha0, ha4, hs0, hs3⟩ := navInv_of_reachable c hr
  have hane : ¬c.actions.isEmpty := by rw [hact]; decide
  have hpa : (pyGet c.actions c.action_index).isSome :=
    pyGet_isSome_of_bounds _ _ ha0 (by rw [hact]; exact_mod_cast ha4)
  have hps : (pyGet settingItemList c.setting_index).isSome :=
    pyGet_isSome_of_bounds _ _ hs0 (by exact_mod_cast hs3)
  refine ⟨⟨?_, ?_, ?_, ?_⟩, fun hu => ?_, fun hu => ?_⟩
  · unfold handle_clockwise
    split <;> (try split_ifs) <;> simp_all
  · unfold handle_counter_clockwise
    split <;> (try split_ifs) <;> simp_all
  · unfold handle_press
    split
    · split_ifs <;> simp
    · obtain ⟨x, hx⟩ := Option.isSome_iff_exists.mp hpa
      rw [hx]
      cases x <;> simp
    · split_ifs <;> simp
    · simp
    · obtain ⟨x, hx⟩ := Option.isSome_iff_exists.mp hps
      rw [hx]
      cases x <;> simp
    · simp
  · unfold handle_long_press
    split <;> simp
  · obtain hu | hu | hu := hu <;>
      refine ⟨?_, ?_, ?_⟩ <;>
      simp [handle_clockwise, handle_counter_clockwise, handle_press, hu]
  · simp [handle_long_press, hu]

/-- Witness for C7: the initial context is reachable and all four handlers
succeed on it. -/
theorem reachable_handlers_never_raise_witness :
    (handle_press initialContext).isSome :=
  (reachable_handlers_never_raise initialContext Reachable.init).1.2.2.1

/-- Every event emitted while the press counter is at `n` carries a press
number at least `n` (the counter never decreases). -/
lemma runButton_fst_ge (evs : List ButtonEdge) :
    ∀ (s : ButtonState) (n : Nat) (p : Nat × ButtonEvent),
      p ∈ runButton s n evs → n ≤ p.1 := by
  induction evs with
  | nil => intro s n p hp; simp [runButton] at hp
  | cons e rest ih =>
      intro s n p hp
      cases e with
      | pressEdge t =>
          simp only [runButton] at hp
          have := ih _ _ _ hp
          omega
      | releaseEdge t =>
          rcases hrel : on_button_released s t with ⟨s', oe⟩
          cases oe with
          | none =>
              simp only [runButton, hrel] at hp
              exact ih _ _ _ hp
          | some ev =>
              simp only [runButton, hrel, List.mem_cons] at hp
              rcases hp with hp | hp
              · subst hp; exact le_refl n
              · exact ih _ _ _ hp

/-- In a trace without consecutive releases, the press numbers of the
emitted events are strictly increasing: no press is classified twice. -/
lemma runButton_press_numbers_increasing (evs : List ButtonEdge) :
    ∀ (s : ButtonState) (n : Nat), noDoubleRelease evs = true →
      List.Chain' (fun a b : Nat × ButtonEvent => a.1 < b.1)
        (runButton s n evs) := by
  induction evs with
  | nil => intro s n _; simp [runButton]
  | cons e rest ih =>
      intro s n h
      cases e with
      | pressEdge t =>
          have h' : noDoubleRelease rest = true := by
            simpa [noDoubleRelease] using h
          simpa only [runButton] using ih _ _ h'
      | releaseEdge t =>
          have h' := h
          simp only [noDoubleRelease, Bool.and_eq_true, Bool.not_eq_true'] at h'
          obtain ⟨h1, h2⟩ := h'
          rcases hrel : on_button_released s t with ⟨s', oe⟩
          cases oe with
          | none =>
              simp only [runButton, hrel]
              exact ih _ _ h2
          | some ev =>
              simp only [runButton, hrel]
              rw [List.chain'_cons']
              refine ⟨fun b hb => ?_, ih _ _ h2⟩
              have hbmem : b ∈ runButton s' n rest :=
                List.mem_of_mem_head? hb
              cases rest with
              | nil => simp [runButton] at hbmem
              | cons e' rest' =>
                  cases e' with
                  | pressEdge u =>
                      simp only [runButton] at hbmem
                      have := runButton_fst_ge rest' _ _ _ hbmem
                      simp only []
                      omega
                  | releaseEdge u => simp [startsWithRelease] at h1

/-- C8: the button classifier classifies only on release.  A release inside
the debounce window of the previous one is discarded (state untouched,
nothing emitted); otherwise it records the release time and emits
`LongPress` when the held duration (release time minus press timestamp) is
at least 0.5 s and `ShortPress` when it is shorter; a press records its
timestamp and emits nothing; and over any edge trace in which releases are
separated by presses, emitted events carry strictly increasing press
numbers — no press is ever classified twice. -/
theorem button_classifier_contract :
    (∀ (s : ButtonState) (now : ℚ),
      now - s.last_button_time < BUTTON_DEBOUNCE →
        on_button_released s now = (s, none)) ∧
    (∀ (s : ButtonState) (now : ℚ),
      ¬(now - s.last_button_time < BUTTON_DEBOUNCE) →
        (LONG_PRESS_TIME ≤ now - s.button_press_time →
          on_button_released s now =
            ({ s with last_button_time := now }, some .LongPress)) ∧
        (now - s.button_press_time < LONG_PRESS_TIME →
          on_button_released s now =
            ({ s with last_button_time := now }, some .ShortPress))) ∧
    (∀ (s : ButtonState) (now : ℚ),
      on_button_pressed s now = { s with button_press_time := now }) ∧
    (∀ (evs : List ButtonEdge) (s : ButtonState) (n : Nat),
      noDoubleRelease evs = true →
        List.Chain' (fun a b : Nat × ButtonEvent => a.1 < b.1)
          (runButton s n evs)) := by
  refine ⟨fun s now h => ?_, fun s now h => ⟨fun hl => ?_, fun hl => ?_⟩,
    fun s now => rfl, fun evs s n h => runButton_press_numbers_increasing evs s n h⟩
  · simp [on_button_released, h]
  · simp [on_button_released, h, hl]
  · simp [on_button_released, h, not_le.mpr hl]

/-- Witness for C8: a debounced release, a long press, a short press, a
press edge, and a four-edge alternating trace. -/
theorem button_classifier_contract_witness :
    on_button_released { last_button_time := 10, button_press_time := 0 }
        (10 + 1 / 10) =
      ({ last_button_time := 10, button_press_time := 0 }, none) ∧
    on_button_released { last_button_time := 0, button_press_time := 10 }
        (10 + 3 / 5) =
      ({ last_button_time := 10 + 3 / 5, button_press_time := 10 },
        some .LongPress) ∧
    on_button_released { last_button_time := 0, button_press_time := 10 }
        (10 + 2 / 5) =
      ({ last_button_time := 10 + 2 / 5, button_press_time := 10 },
        some .ShortPress) ∧
    on_button_pressed {} 5 = { last_button_time := 0, button_press_time := 5 } ∧
    List.Chain' (fun a b : Nat × ButtonEvent => a.1 < b.1)
      (runButton {} 0
        [.pressEdge 1, .releaseEdge 2, .pressEdge 3, .releaseEdge 4]) :=
  ⟨button_classifier_contract.1 _ _ (by norm_num [BUTTON_DEBOUNCE]),
   (button_classifier_contract.2.1 _ _
      (by norm_num [BUTTON_DEBOUNCE])).1
      (by norm_num [LONG_PRESS_TIME]),
   (button_classifier_contract.2.1 _ _
      (by norm_num [BUTTON_DEBOUNCE])).2
      (by norm_num [LONG_PRESS_TIME]),
   button_classifier_contract.2.2.1 _ _,
   button_classifier_contract.2.2.2 _ _ _ (by decide)⟩

end DaysTracker
